import Mathlib

/-
Verification of the khitomer task-orchestration pipeline.

This file gives a shallow embedding, in Lean 4, of the parts of the Go
source that the specification's testable properties talk about:

  * pkg/types                      — the data model (Task, plans, PR info)
  * internal/jira/poller.go        — the deduplicating Jira poller
  * internal/leader (orchestrator) — the consume loop
  * internal/planner (AIPlanner)   — prompt-response parsing
  * internal/temporal/client.go    — deterministic workflow identifiers
  * internal/temporal/workflows/implementation_workflow.go
                                   — the 7-step pipeline and branch names
  * internal/github/pr.go          — branch/PR name generation
  * internal/activities            — activity wrapper functions

Go strings are modelled as Lean String values and string positions count
runes where Go counts bytes; every slice the source takes is at the
boundary of an occurrence of an ASCII pattern, where the two coincide.
Channels, contexts and selects are modelled by explicit decision oracles,
explained at the definitions that use them.
-/

namespace Khitomer

/-- Task mirrors pkg/types Task (part_004): a Jira task with repository
information.  The CreatedAt timestamp is modelled as a Nat. -/
structure Task where
  JiraTicketID : String
  Title : String
  Description : String
  Status : String
  Assignee : String
  RepositoryOwner : String
  RepositoryName : String
  RepositoryURL : String
  BaseBranch : String
  CreatedAt : Nat
deriving DecidableEq, Inhabited

/-- RepositoryInfo mirrors pkg/types RepositoryInfo (part_005). -/
structure RepositoryInfo where
  Owner : String
  Name : String
  BaseBranch : String
  FeatureBranch : String
  CloneURL : String
deriving DecidableEq, Inhabited

/-- PRInfo mirrors pkg/types PRInfo (part_005); PRNumber is int64 in Go. -/
structure PRInfo where
  PRNumber : Int
  PRURL : String
  Title : String
  Description : String
  Status : String
deriving DecidableEq, Inhabited

/-- PlanStep mirrors the types package PlanStep as used by the planner
(part_002): order index, description, activity-type tag, and a free-form
parameter map (modelled as an association list; the source only ever
creates it empty). -/
structure PlanStep where
  Order : Nat
  Description : String
  ActivityType : String
  Parameters : List (String × String)
deriving DecidableEq, Inhabited

/-- ImplementationPlan mirrors the types package ImplementationPlan as used
by the planner (part_002) and the workflow. -/
structure ImplementationPlan where
  Summary : String
  Steps : List PlanStep
  FilesToModify : List String
  FilesToCreate : List String
  EstimatedComplexity : String
deriving DecidableEq, Inhabited

/-! String helpers mirroring the Go strings package functions the source
uses.  They operate on the rune list underlying a String. -/

/-- goIsSpace decides Go unicode.IsSpace on the characters that satisfy
the Unicode White_Space property (the set Go's strings.TrimSpace trims). -/
def goIsSpace (c : Char) : Bool :=
  c = ' ' || c = '\t' || c = '\n' || c = '\x0b' || c = '\x0c' || c = '\r' ||
  c = '\x85' || c = '\xa0' || c = '\u1680' ||
  ('\u2000' ≤ c && c ≤ '\u200a') ||
  c = '\u2028' || c = '\u2029' || c = '\u202f' || c = '\u205f' || c = '\u3000'

/-- goTrimSpace mirrors Go strings.TrimSpace: drop leading and trailing
white space. -/
def goTrimSpace (s : String) : String :=
  ⟨((s.data.dropWhile goIsSpace).reverse.dropWhile goIsSpace).reverse⟩

/-- strStarts mirrors Go strings.HasPrefix. -/
def strStarts (s pre : String) : Bool :=
  pre.data.isPrefixOf s.data

/-- trimPre mirrors Go strings.TrimPrefix: remove the leading prefix if it
is present, otherwise return the string unchanged. -/
def trimPre (s pre : String) : String :=
  if pre.data.isPrefixOf s.data then ⟨s.data.drop pre.data.length⟩ else s

/-- trimSuf mirrors Go strings.TrimSuffix. -/
def trimSuf (s suf : String) : String :=
  if suf.data.isSuffixOf s.data then
    ⟨s.data.take (s.data.length - suf.data.length)⟩
  else s

/-- strTake mirrors the Go slice s[:n] (rune-counted; see header note). -/
def strTake (s : String) (n : Nat) : String := ⟨s.data.take n⟩

/-- strDrop mirrors the Go slice s[n:] (rune-counted; see header note). -/
def strDrop (s : String) (n : Nat) : String := ⟨s.data.drop n⟩

/-- goIndexAux scans a rune list for the first position where pat is a
prefix, returning its index. -/
def goIndexAux (pat : List Char) : List Char → Nat → Option Nat
  | [], i => if pat.isEmpty then some i else none
  | c :: cs, i =>
    if pat.isPrefixOf (c :: cs) then some i else goIndexAux pat cs (i + 1)

/-- goIndex mirrors Go strings.Index: the position of the first occurrence
of pat in s, or none where Go returns -1. -/
def goIndex (s pat : String) : Option Nat :=
  goIndexAux pat.data s.data 0

/-- splitOnChar mirrors Go strings.Split with a one-rune separator: the
list of (possibly empty) chunks between occurrences of the separator. -/
def splitOnChar (sep : Char) : List Char → List (List Char)
  | [] => [[]]
  | c :: cs =>
    if c = sep then [] :: splitOnChar sep cs
    else
      match splitOnChar sep cs with
      | [] => [[c]]
      | chunk :: chunks => (c :: chunk) :: chunks

/-- goSplitChar lifts splitOnChar to String, as the source's calls to
strings.Split all use a single-rune separator. -/
def goSplitChar (s : String) (sep : Char) : List String :=
  (splitOnChar sep s.data).map fun l => ⟨l⟩

/-! Branch-name generation, from
internal/temporal/workflows/implementation_workflow.go (lines 100-141) and
the textually identical internal/github/pr.go (lines 9-56). -/

/-- truncateString mirrors truncateString in implementation_workflow.go:
keep the string when its length is within maxLen, otherwise cut it.  Go
counts bytes; this model counts runes, and the two agree on ASCII titles
(the sanitizer's output alphabet is unaffected either way). -/
def truncateString (s : String) (maxLen : Nat) : String :=
  if s.data.length ≤ maxLen then s else ⟨s.data.take maxLen⟩

/-- sanitizeKeep decides the character guard of sanitizeBranchName in the
source: ASCII letters, digits, hyphen-minus and underscore. -/
def sanitizeKeep (c : Char) : Bool :=
  ('a' ≤ c && c ≤ 'z') || ('A' ≤ c && c ≤ 'Z') ||
  ('0' ≤ c && c ≤ '9') || c = '-' || c = '_'

/-- sanitizeChars is the rune loop of sanitizeBranchName: keep the guarded
characters, map a space to a hyphen, drop everything else. -/
def sanitizeChars : List Char → List Char
  | [] => []
  | c :: cs =>
    if sanitizeKeep c then c :: sanitizeChars cs
    else if c = ' ' then '-' :: sanitizeChars cs
    else sanitizeChars cs

/-- sanitizeBranchName mirrors sanitizeBranchName in
implementation_workflow.go (lines 130-141). -/
def sanitizeBranchName (s : String) : String := ⟨sanitizeChars s.data⟩

/-- generateBranchName mirrors generateBranchName in
implementation_workflow.go (lines 100-104). -/
def generateBranchName (ticketID title : String) : String :=
  "khitomer/" ++ ticketID ++ "-" ++ sanitizeBranchName (truncateString title 30)

/-- GenerateBranchName mirrors GenerateBranchName in internal/github/pr.go
(lines 9-12), whose helpers repeat the workflow package's logic. -/
def GenerateBranchName (ticketID title : String) : String :=
  "khitomer/" ++ ticketID ++ "-" ++ sanitizeBranchName (truncateString title 30)

/-- StartWorkflow models the workflow-identifier computation of
Client.StartWorkflow in internal/temporal/client.go (line 40): the value
returned to the caller and used as the run identifier is
fmt.Sprintf("implementation-%s-%s", task.JiraTicketID, task.RepositoryName).
The plan and repository arguments are carried only inside the workflow
input and never contribute to the identifier. -/
def StartWorkflow (task : Task) (_plan : ImplementationPlan)
    (_repo : RepositoryInfo) : String :=
  "implementation-" ++ task.JiraTicketID ++ "-" ++ task.RepositoryName

/-! Poller, from internal/jira/poller.go.

The poller's mutable state is its processedTasks map, modelled as the list
of ticket identifiers stored with value true (markProcessed only ever
stores true, so the list of keys carries the whole map).

The select statement racing the channel send against ctx.Done is modelled
by an oracle: a list of Bool decisions consumed one per send attempt.
true means the channel accepted the task first; false means cancellation
fired first (for instance because the channel was full and the context was
cancelled while the send blocked).  An exhausted oracle stands for a
context that is never cancelled, so every send succeeds. -/

/-- PollResult packages the outcome of one poller operation: the updated
processedTasks set, the ticket identifiers placed on the output channel in
order, the unconsumed part of the select oracle, and whether the operation
returned through the ctx.Done branch. -/
structure PollResult where
  processed : List String
  emitted : List String
  oracle : List Bool
  cancelled : Bool
deriving DecidableEq

/-- selectSend resolves one select between the channel send and ctx.Done:
the head of the oracle decides, and an empty oracle lets the send win. -/
def selectSend : List Bool → Bool × List Bool
  | [] => (true, [])
  | b :: rest => (b, rest)

/-- pollTasks is the inner loop of Poller.poll (poller.go lines 65-80) over
the task list of one status: skip tickets already in processedTasks,
otherwise mark the ticket processed and then race the channel send against
cancellation; the ctx.Done branch returns from poll at once. -/
def pollTasks (procs : List String) : List Task → List Bool → PollResult
  | [], or => ⟨procs, [], or, false⟩
  | t :: ts, or =>
    if t.JiraTicketID ∈ procs then pollTasks procs ts or
    else
      match selectSend or with
      | (true, rest) =>
        let r := pollTasks (t.JiraTicketID :: procs) ts rest
        ⟨r.processed, t.JiraTicketID :: r.emitted, r.oracle, r.cancelled⟩
      | (false, rest) => ⟨t.JiraTicketID :: procs, [], rest, true⟩

/-- poll is Poller.poll (poller.go lines 54-82): for each status in filter
order the tracker query either fails (logged, the loop continues with the
next status) or yields a task list handed to pollTasks; a cancellation
inside pollTasks returns from the whole poll. -/
def poll (procs : List String) :
    List (Except String (List Task)) → List Bool → PollResult
  | [], or => ⟨procs, [], or, false⟩
  | fetch :: fetches, or =>
    match fetch with
    | .error _ => poll procs fetches or
    | .ok tasks =>
      let r := pollTasks procs tasks or
      if r.cancelled then r
      else
        let r2 := poll r.processed fetches r.oracle
        ⟨r2.processed, r.emitted ++ r2.emitted, r2.oracle, r2.cancelled⟩

/-- pollCycles is the ticking loop of Poller.Start (poller.go lines 35-51):
one poll per cycle, threading processedTasks; once the context is observed
cancelled the loop stops. -/
def pollCycles (procs : List String) :
    List (List (Except String (List Task))) → List Bool → PollResult
  | [], or => ⟨procs, [], or, false⟩
  | cycle :: cycles, or =>
    let r := poll procs cycle or
    if r.cancelled then r
    else
      let r2 := pollCycles r.processed cycles r.oracle
      ⟨r2.processed, r.emitted ++ r2.emitted, r2.oracle, r2.cancelled⟩

/-! Plan parsing, from the planner package (src/unnamed/part_002). -/

/-- ParseState is the loop state of AIPlanner.parseResponse: the plan being
built, the current section label, and the next step order number. -/
structure ParseState where
  plan : ImplementationPlan
  currentSection : String
  stepOrder : Nat
deriving DecidableEq

/-- parseStep mirrors AIPlanner.parseStep (part_002 lines 170-198): strip
an optional leading ordinal up to the first dot, extract a bracketed
[TYPE: tag] if one is present and well formed, and default the activity
type to codegen otherwise. -/
def parseStep (line0 : String) (order : Nat) : PlanStep :=
  let line1 := goTrimSpace line0
  let line2 :=
    match goIndex line1 "." with
    | some idx => goTrimSpace (strDrop line1 (idx + 1))
    | none => line1
  match goIndex line2 "[TYPE:" with
  | none => ⟨order, line2, "codegen", []⟩
  | some idx =>
    let typePart := strDrop line2 idx
    match goIndex typePart "]" with
    | none => ⟨order, line2, "codegen", []⟩
    | some endIdx =>
      let typeStr := goTrimSpace (trimSuf (trimPre (strTake typePart (endIdx + 1)) "[TYPE:") "]")
      let activityType := if typeStr ≠ "" then typeStr else "codegen"
      ⟨order, goTrimSpace (strTake line2 idx), activityType, []⟩

/-- processLine is the body of the parseResponse line loop (part_002 lines
117-161): trim the line, dispatch on the labelled section markers, and
inside the steps section append the parsed step. -/
def processLine (st : ParseState) (rawLine : String) : ParseState :=
  let line := goTrimSpace rawLine
  if line = "" then st
  else if strStarts line "SUMMARY:" then
    { st with
      plan := { st.plan with Summary := goTrimSpace (trimPre line "SUMMARY:") },
      currentSection := "summary" }
  else if strStarts line "STEPS:" then
    { st with currentSection := "steps" }
  else if strStarts line "FILES_MODIFY:" then
    let files := goTrimSpace (trimPre line "FILES_MODIFY:")
    if files ≠ "" then
      { st with
        plan := { st.plan with
          FilesToModify := (goSplitChar files ',').map goTrimSpace },
        currentSection := "" }
    else { st with currentSection := "" }
  else if strStarts line "FILES_CREATE:" then
    let files := goTrimSpace (trimPre line "FILES_CREATE:")
    if files ≠ "" then
      { st with
        plan := { st.plan with
          FilesToCreate := (goSplitChar files ',').map goTrimSpace },
        currentSection := "" }
    else { st with currentSection := "" }
  else if strStarts line "COMPLEXITY:" then
    { st with
      plan := { st.plan with
        EstimatedComplexity := goTrimSpace (trimPre line "COMPLEXITY:") },
      currentSection := "" }
  else if st.currentSection = "steps" then
    { st with
      plan := { st.plan with
        Steps := st.plan.Steps ++ [parseStep line st.stepOrder] },
      stepOrder := st.stepOrder + 1 }
  else st

/-- responseLines is the strings.Split(response, "\n") of parseResponse. -/
def responseLines (response : String) : List String :=
  goSplitChar response '\n'

/-- parseResponse mirrors AIPlanner.parseResponse (part_002 lines 106-168).
The Go function returns (*ImplementationPlan, error); its only return is
(plan, nil), so the error component here is literally none. -/
def parseResponse (response : String) (task : Task) :
    ImplementationPlan × Option String :=
  let init : ParseState := ⟨⟨"", [], [], [], ""⟩, "", 1⟩
  let st := (responseLines response).foldl processLine init
  let plan :=
    if st.plan.Summary = "" then
      { st.plan with Summary := "Implementation plan for " ++ task.JiraTicketID }
    else st.plan
  (plan, none)

/-- ChatChoice models one openai chat completion choice: its message
content is all the planner reads. -/
structure ChatChoice where
  Content : String
deriving DecidableEq

/-- ChatResponse models the openai chat completion response the planner
inspects: its list of choices. -/
structure ChatResponse where
  Choices : List ChatChoice
deriving DecidableEq

/-- Plan mirrors AIPlanner.Plan (part_002 lines 37-77).  The outbound call
to the completion backend is an oracle argument: either the transport
error Go would wrap, or the response object. -/
def Plan (completion : Except String ChatResponse) (task : Task) :
    Except String ImplementationPlan :=
  match completion with
  | .error err => .error ("failed to create chat completion: " ++ err)
  | .ok resp =>
    match resp.Choices with
    | [] => .error "no response from AI"
    | choice :: _ =>
      match parseResponse choice.Content task with
      | (_, some perr) => .error ("failed to parse AI response: " ++ perr)
      | (plan, none) => .ok plan

/-- exceptIsOk reports whether an Except value is a success. -/
def exceptIsOk {ε α : Type} : Except ε α → Bool
  | .ok _ => true
  | .error _ => false

/-! Activity result types, from internal/activities (testing.go second
part).  Pointer fields become Option; Go zero values are false, the empty
string and none. -/

/-- GitHubOperationResult mirrors the activities package struct of the same
name; PRInfo is a *types.PRInfo in Go, hence an Option here. -/
structure GitHubOperationResult where
  Success : Bool
  Message : String
  PRInfo : Option PRInfo
  BranchName : String
  RepositoryPath : String
deriving DecidableEq, Inhabited

/-- CodeGenerationResult mirrors the activities package struct. -/
structure CodeGenerationResult where
  Success : Bool
  ModifiedFiles : List String
  CreatedFiles : List String
  Summary : String
deriving DecidableEq, Inhabited

/-- TestingResult mirrors the activities package struct. -/
structure TestingResult where
  Passed : Bool
  Output : String
  Failures : List String
deriving DecidableEq, Inhabited

/-- JiraUpdateResult mirrors the activities package struct. -/
structure JiraUpdateResult where
  Success : Bool
  Message : String
deriving DecidableEq, Inhabited

/-- GitHubActivities models the handler object set through
SetGitHubActivities (part_003): one function per GitHub activity, each
returning the activity's result or an error. -/
structure GitHubActivities where
  CloneRepositoryActivity : RepositoryInfo → Except String GitHubOperationResult
  CreateBranchActivity : RepositoryInfo → String → Except String GitHubOperationResult
  CommitChangesActivity : RepositoryInfo → String → String → Except String GitHubOperationResult
  CreatePRActivity : RepositoryInfo → String → String → Except String GitHubOperationResult

/-- JiraActivities models the handler object set through
SetJiraActivities (part_003). -/
structure JiraActivities where
  UpdateJiraActivity : String → String → Except String JiraUpdateResult

/-! Activity wrapper functions, from
internal/activities/activity_functions.go.  The package-level handler
variables are passed explicitly; none models the variable never having
been set. -/

/-- CloneRepositoryActivity mirrors activity_functions.go lines 28-33. -/
def CloneRepositoryActivity (githubActivities : Option GitHubActivities)
    (repo : RepositoryInfo) : Except String GitHubOperationResult :=
  match githubActivities with
  | none => .ok ⟨false, "GitHub activities not initialized", none, "", ""⟩
  | some a => a.CloneRepositoryActivity repo

/-- CreateBranchActivity mirrors activity_functions.go lines 36-41. -/
def CreateBranchActivity (githubActivities : Option GitHubActivities)
    (repo : RepositoryInfo) (branchName : String) :
    Except String GitHubOperationResult :=
  match githubActivities with
  | none => .ok ⟨false, "GitHub activities not initialized", none, "", ""⟩
  | some a => a.CreateBranchActivity repo branchName

/-- CommitChangesActivity mirrors activity_functions.go lines 44-49. -/
def CommitChangesActivity (githubActivities : Option GitHubActivities)
    (repo : RepositoryInfo) (repoPath message : String) :
    Except String GitHubOperationResult :=
  match githubActivities with
  | none => .ok ⟨false, "GitHub activities not initialized", none, "", ""⟩
  | some a => a.CommitChangesActivity repo repoPath message

/-- CreatePRActivity mirrors activity_functions.go lines 52-57. -/
def CreatePRActivity (githubActivities : Option GitHubActivities)
    (repo : RepositoryInfo) (title description : String) :
    Except String GitHubOperationResult :=
  match githubActivities with
  | none => .ok ⟨false, "GitHub activities not initialized", none, "", ""⟩
  | some a => a.CreatePRActivity repo title description

/-- UpdateJiraActivity mirrors activity_functions.go lines 60-65. -/
def UpdateJiraActivity (jiraActivities : Option JiraActivities)
    (ticketID prURL : String) : Except String JiraUpdateResult :=
  match jiraActivities with
  | none => .ok ⟨false, "Jira activities not initialized"⟩
  | some a => a.UpdateJiraActivity ticketID prURL

/-! ImplementationWorkflow, from
internal/temporal/workflows/implementation_workflow.go. -/

/-- WorkflowInput mirrors workflow_input.go. -/
structure WorkflowInput where
  Task : Task
  Plan : ImplementationPlan
  Repository : RepositoryInfo

/-- ActivityBehavior is the oracle for one workflow run: for each of the
seven ExecuteActivity calls, the value the call's Get delivers after the
runtime's retry policy is exhausted — either the decoded result or the
final error. -/
structure ActivityBehavior where
  CloneRepositoryActivity : Except String GitHubOperationResult
  CreateBranchActivity : Except String GitHubOperationResult
  CodeGenerationActivity : Except String CodeGenerationResult
  TestingActivity : Except String TestingResult
  CommitChangesActivity : Except String GitHubOperationResult
  CreatePRActivity : Except String GitHubOperationResult
  UpdateJiraActivity : Except String JiraUpdateResult

/-- WFOutcome is how a run of ImplementationWorkflow ends: the returned PR
info, the error of a fatal step, or the Go nil-pointer panic raised when
the workflow evaluates prResult.PRInfo.PRURL with a nil PRInfo while
building the arguments of step 7. -/
inductive WFOutcome where
  | ok (pr : PRInfo)
  | err (e : String)
  | crashNilPRInfo
deriving DecidableEq

/-- ImplementationWorkflow mirrors ImplementationWorkflow
(implementation_workflow.go lines 15-98).  The first component records
which of the seven activities were invoked, in order; the second is the
run's outcome.  Steps 1, 2, 3, 5 and 6 return their error; the errors of
step 4 (tests) and step 7 (Jira comment) are logged and ignored.  Between
step 6 and step 7 the source evaluates prResult.PRInfo.PRURL, which
dereferences a nil pointer when step 6's result carries no PR info. -/
def ImplementationWorkflow (acts : ActivityBehavior) (_input : WorkflowInput) :
    List Nat × WFOutcome :=
  match acts.CloneRepositoryActivity with
  | .error e => ([1], .err e)
  | .ok _cloneResult =>
    match acts.CreateBranchActivity with
    | .error e => ([1, 2], .err e)
    | .ok _branchResult =>
      match acts.CodeGenerationActivity with
      | .error e => ([1, 2, 3], .err e)
      | .ok _codegenResult =>
        let _testResult := acts.TestingActivity
        match acts.CommitChangesActivity with
        | .error e => ([1, 2, 3, 4, 5], .err e)
        | .ok _commitResult =>
          match acts.CreatePRActivity with
          | .error e => ([1, 2, 3, 4, 5, 6], .err e)
          | .ok prResult =>
            match prResult.PRInfo with
            | none => ([1, 2, 3, 4, 5, 6], .crashNilPRInfo)
            | some pr =>
              let _jiraResult := acts.UpdateJiraActivity
              ([1, 2, 3, 4, 5, 6, 7], .ok pr)

/-! Orchestrator, from the leader package (second part of
internal/jira/client.go, lines 188-267). -/

/-- processTask mirrors Orchestrator.processTask (lines 235-267): plan the
task, build the RepositoryInfo, start the workflow; either error is
wrapped and returned, success returns the workflow identifier. -/
def processTask
    (planner : Task → Except String ImplementationPlan)
    (startWf : Task → ImplementationPlan → RepositoryInfo → Except String String)
    (task : Task) : Except String String :=
  match planner task with
  | .error e => .error ("failed to generate plan: " ++ e)
  | .ok plan =>
    let repo : RepositoryInfo :=
      ⟨task.RepositoryOwner, task.RepositoryName, task.BaseBranch, "",
        task.RepositoryURL⟩
    match startWf task plan repo with
    | .error e => .error ("failed to start workflow: " ++ e)
    | .ok workflowID => .ok workflowID

/-- orchestratorStart mirrors the consume loop of Orchestrator.Start
(lines 212-232): the tasks received from the channel before the context is
cancelled are handled one after another — a processTask error is only
logged — and when ctx.Done fires the loop returns ctx.Err(), here the
ctxErr argument.  The second component is the log of per-task results, in
arrival order. -/
def orchestratorStart
    (planner : Task → Except String ImplementationPlan)
    (startWf : Task → ImplementationPlan → RepositoryInfo → Except String String)
    (tasks : List Task) (ctxErr : String) : String × List (Except String String) :=
  match tasks with
  | [] => (ctxErr, [])
  | t :: ts =>
    let r := processTask planner startWf t
    let rest := orchestratorStart planner startWf ts ctxErr
    (rest.1, r :: rest.2)

/-! Sample values used by concrete witnesses and counterexamples. -/

/-- sampleTask is the PROJ-1 ticket of the spec's examples. -/
def sampleTask : Task :=
  ⟨"PROJ-1", "Fix login bug!!", "Users cannot log in", "Ready for Development",
    "dev", "org", "app", "https://github.com/org/app", "main", 0⟩

/-- sampleTask2 shares sampleTask's ticket identifier and repository name
but differs in every other field. -/
def sampleTask2 : Task :=
  ⟨"PROJ-1", "Other title", "Other description", "In Progress",
    "someone", "other-owner", "app", "https://example.invalid", "develop", 7⟩

/-- emptyPlan is a plan with no content. -/
def emptyPlan : ImplementationPlan := ⟨"", [], [], [], ""⟩

/-- samplePlan is a small two-step plan. -/
def samplePlan : ImplementationPlan :=
  ⟨"Do the fix", [⟨1, "Edit handler", "codegen", []⟩, ⟨2, "Run tests", "testing", []⟩],
    ["auth.go"], [], "low"⟩

/-- sampleRepo is the repository of sampleTask. -/
def sampleRepo : RepositoryInfo :=
  ⟨"org", "app", "main", "", "https://github.com/org/app"⟩

/-- sampleInput is a workflow input for sampleTask. -/
def sampleInput : WorkflowInput := ⟨sampleTask, samplePlan, sampleRepo⟩

/-- samplePR is a PR handle as a successful step 6 would produce. -/
def samplePR : PRInfo :=
  ⟨42, "https://github.com/org/app/pull/42", "PROJ-1: Fix login bug!!", "body", "open"⟩

/-- sampleActsOk is an all-succeeding activity oracle whose step 6 carries
samplePR. -/
def sampleActsOk : ActivityBehavior :=
  ⟨.ok ⟨true, "repository cloned successfully", none, "", "/ws/org/app"⟩,
    .ok ⟨true, "branch created successfully", none, "khitomer/PROJ-1-Fix-login-bug", ""⟩,
    .ok ⟨true, ["auth.go"], [], "fixed login"⟩,
    .ok ⟨true, "ok", []⟩,
    .ok ⟨true, "changes committed and pushed successfully", none, "", ""⟩,
    .ok ⟨true, "pull request created successfully", some samplePR, "", ""⟩,
    .ok ⟨true, "Jira updated successfully"⟩⟩

/-- unsetHandlerActs is the activity oracle of a run in which neither
SetGitHubActivities nor SetJiraActivities was ever called: every wrapper
answers with its handler unset, while code generation and testing (which
are not behind a handler variable) succeed. -/
def unsetHandlerActs : ActivityBehavior :=
  ⟨CloneRepositoryActivity none sampleRepo,
    CreateBranchActivity none sampleRepo "khitomer/PROJ-1-Fix-login-bug",
    .ok ⟨true, [], [], "generated"⟩,
    .ok ⟨true, "", []⟩,
    CommitChangesActivity none sampleRepo "/ws" "msg",
    CreatePRActivity none sampleRepo "PROJ-1: Fix login bug!!" "body",
    UpdateJiraActivity none "PROJ-1" "https://github.com/org/app/pull/42"⟩

/-! Theorems for the claims. -/

/-- C3: the run identifier computed by StartWorkflow is a pure function of
the task's ticket identifier and repository name — two tasks agreeing on
those two fields produce the same identifier whatever their other fields,
plans or repositories — and it is the string
"implementation-(ticketID)-(repoName)". -/
theorem run_identifier_deterministic :
    (∀ (t1 t2 : Task) (p1 p2 : ImplementationPlan) (r1 r2 : RepositoryInfo),
      t1.JiraTicketID = t2.JiraTicketID → t1.RepositoryName = t2.RepositoryName →
      StartWorkflow t1 p1 r1 = StartWorkflow t2 p2 r2)
    ∧ (∀ (t : Task) (p : ImplementationPlan) (r : RepositoryInfo),
      StartWorkflow t p r =
        "implementation-" ++ t.JiraTicketID ++ "-" ++ t.RepositoryName) := by
  constructor
  · intro t1 t2 p1 p2 r1 r2 hid hrepo
    simp [StartWorkflow, hid, hrepo]
  · intro t p r
    rfl

/-- Witness for C3: two concrete tasks sharing ticket PROJ-1 and repository
app but nothing else give the same workflow identifier. -/
theorem run_identifier_deterministic_witness :
    StartWorkflow sampleTask samplePlan sampleRepo =
      StartWorkflow sampleTask2 emptyPlan ⟨"x", "y", "z", "w", "v"⟩ :=
  run_identifier_deterministic.1 sampleTask sampleTask2 samplePlan emptyPlan
    sampleRepo ⟨"x", "y", "z", "w", "v"⟩ rfl rfl

/-- Every character the sanitizer emits satisfies its keep guard: kept
characters trivially, and the space case because the hyphen it emits is in
the guarded alphabet. -/
lemma sanitizeChars_all (l : List Char) :
    (sanitizeChars l).all sanitizeKeep = true := by
  induction l with
  | nil => rfl
  | cons c cs ih =>
    by_cases h1 : sanitizeKeep c
    · simp [sanitizeChars, h1, ih]
    · by_cases h2 : c = ' '
      · have hdash : sanitizeKeep '-' = true := by decide
        have hsp : sanitizeKeep ' ' = false := by decide
        subst h2
        simp [sanitizeChars, hsp, ih, hdash]
      · simp [sanitizeChars, h1, h2, ih]

/-- C7: generateBranchName produces
"khitomer/(ticketID)-(sanitize(truncate(title, 30)))", the github
package's GenerateBranchName computes the same string, every character of
the sanitized portion lies in [A-Za-z0-9_-] (spaces having been mapped to
hyphens and all other characters dropped), and the spec's example holds:
ticket PROJ-1 with title "Fix login bug!!" yields
khitomer/PROJ-1-Fix-login-bug. -/
theorem branch_name_sanitization :
    (∀ ticketID title : String,
      generateBranchName ticketID title =
        "khitomer/" ++ ticketID ++ "-" ++ sanitizeBranchName (truncateString title 30)
      ∧ GenerateBranchName ticketID title = generateBranchName ticketID title
      ∧ (sanitizeBranchName (truncateString title 30)).data.all sanitizeKeep = true)
    ∧ generateBranchName "PROJ-1" "Fix login bug!!" = "khitomer/PROJ-1-Fix-login-bug" := by
  constructor
  · intro ticketID title
    exact ⟨rfl, rfl, sanitizeChars_all _⟩
  · decide

/-- C8: whatever the planner and the workflow starter answer for each task
— including planning errors and start errors — the Orchestrator consume
loop handles every received task in arrival order (an error is only
recorded, never breaks the loop), and the value the loop finally returns
is the cancellation cause ctx.Err(), reached only once the context is
done. -/
theorem orchestrator_loop_resilient :
    ∀ (planner : Task → Except String ImplementationPlan)
      (startWf : Task → ImplementationPlan → RepositoryInfo → Except String String)
      (tasks : List Task) (ctxErr : String),
      (orchestratorStart planner startWf tasks ctxErr).1 = ctxErr
      ∧ (orchestratorStart planner startWf tasks ctxErr).2 =
          tasks.map (processTask planner startWf) := by
  intro planner startWf tasks ctxErr
  induction tasks with
  | nil => exact ⟨rfl, rfl⟩
  | cons t ts ih =>
    refine ⟨ih.1, ?_⟩
    simp [orchestratorStart, ih.1, ih.2]

/-- C6: AIPlanner.Plan succeeds exactly when the completion backend call
succeeds with at least one choice; parseResponse never produces an error,
so any response text — however malformed — still yields a plan, namely the
parse of the first choice's content. -/
theorem plan_fails_iff_backend :
    ∀ (completion : Except String ChatResponse) (task : Task),
      (exceptIsOk (Plan completion task) =
        match completion with
        | .error _ => false
        | .ok resp => !resp.Choices.isEmpty)
      ∧ (∀ (r : String) (t : Task), (parseResponse r t).2 = none)
      ∧ (∀ (choice : ChatChoice) (rest : List ChatChoice) (t : Task),
          Plan (.ok ⟨choice :: rest⟩) t = .ok (parseResponse choice.Content t).1) := by
  intro completion task
  refine ⟨?_, fun r t => rfl, fun choice rest t => rfl⟩
  match completion with
  | .error e => rfl
  | .ok ⟨[]⟩ => rfl
  | .ok ⟨c :: cs⟩ => rfl

/-- C2: per-run behaviour of ImplementationWorkflow.  When steps 1, 2, 3,
5 and 6 all deliver results (step 6's carrying a PR handle), the run
executes all seven activities and returns that PR info whatever steps 4
and 7 deliver — including errors, which are tolerated.  When the clone,
branch, code-generation, commit or PR-creation activity delivers an error,
the run returns exactly that error and no later activity is executed, as
the invocation trace shows. -/
theorem workflow_fatal_vs_tolerated :
    ∀ (acts : ActivityBehavior) (input : WorkflowInput),
      ((∀ c b g m p pr,
        acts.CloneRepositoryActivity = .ok c →
        acts.CreateBranchActivity = .ok b →
        acts.CodeGenerationActivity = .ok g →
        acts.CommitChangesActivity = .ok m →
        acts.CreatePRActivity = .ok p → p.PRInfo = some pr →
        ImplementationWorkflow acts input = ([1, 2, 3, 4, 5, 6, 7], .ok pr))
      ∧ (∀ e, acts.CloneRepositoryActivity = .error e →
          ImplementationWorkflow acts input = ([1], .err e))
      ∧ (∀ c e, acts.CloneRepositoryActivity = .ok c →
          acts.CreateBranchActivity = .error e →
          ImplementationWorkflow acts input = ([1, 2], .err e))
      ∧ (∀ c b e, acts.CloneRepositoryActivity = .ok c →
          acts.CreateBranchActivity = .ok b →
          acts.CodeGenerationActivity = .error e →
          ImplementationWorkflow acts input = ([1, 2, 3], .err e))
      ∧ (∀ c b g e, acts.CloneRepositoryActivity = .ok c →
          acts.CreateBranchActivity = .ok b →
          acts.CodeGenerationActivity = .ok g →
          acts.CommitChangesActivity = .error e →
          ImplementationWorkflow acts input = ([1, 2, 3, 4, 5], .err e))
      ∧ (∀ c b g m e, acts.CloneRepositoryActivity = .ok c →
          acts.CreateBranchActivity = .ok b →
          acts.CodeGenerationActivity = .ok g →
          acts.CommitChangesActivity = .ok m →
          acts.CreatePRActivity = .error e →
          ImplementationWorkflow acts input = ([1, 2, 3, 4, 5, 6], .err e))) := by
  intro acts input
  refine ⟨?_, ?_, ?_, ?_, ?_, ?_⟩
  · intro c b g m p pr h1 h2 h3 h5 h6 hpr
    simp [ImplementationWorkflow, h1, h2, h3, h5, h6, hpr]
  · intro e h1
    simp [ImplementationWorkflow, h1]
  · intro c e h1 h2
    simp [ImplementationWorkflow, h1, h2]
  · intro c b e h1 h2 h3
    simp [ImplementationWorkflow, h1, h2, h3]
  · intro c b g e h1 h2 h3 h5
    simp [ImplementationWorkflow, h1, h2, h3, h5]
  · intro c b g m e h1 h2 h3 h5 h6
    simp [ImplementationWorkflow, h1, h2, h3, h5, h6]

/-- Witness for C2: on the all-succeeding oracle the run returns samplePR
after executing all seven steps. -/
theorem workflow_fatal_vs_tolerated_witness :
    ImplementationWorkflow sampleActsOk sampleInput =
      ([1, 2, 3, 4, 5, 6, 7], .ok samplePR) :=
  (workflow_fatal_vs_tolerated sampleActsOk sampleInput).1
    ⟨true, "repository cloned successfully", none, "", "/ws/org/app"⟩
    ⟨true, "branch created successfully", none, "khitomer/PROJ-1-Fix-login-bug", ""⟩
    ⟨true, ["auth.go"], [], "fixed login"⟩
    ⟨true, "changes committed and pushed successfully", none, "", ""⟩
    ⟨true, "pull request created successfully", some samplePR, "", ""⟩
    samplePR rfl rfl rfl rfl rfl rfl

/-- Counterexample for C9: with both handler variables unset every wrapper
does return Success=false with a nil error, yet the workflow does not
proceed past step 6 as if it had succeeded — the unset-handler result of
CreatePRActivity carries no PR info, and evaluating prResult.PRInfo.PRURL
while preparing step 7 dereferences a nil pointer, so step 7 is never
invoked. -/
theorem unset_handlers_not_all_steps_proceed :
    CreatePRActivity none sampleRepo "PROJ-1: Fix login bug!!" "body" =
      .ok ⟨false, "GitHub activities not initialized", none, "", ""⟩
    ∧ ImplementationWorkflow unsetHandlerActs sampleInput =
        ([1, 2, 3, 4, 5, 6], .crashNilPRInfo)
    ∧ 7 ∉ (ImplementationWorkflow unsetHandlerActs sampleInput).1 := by
  refine ⟨rfl, rfl, ?_⟩
  decide

/-- C9 as amended: when the package-level handlers are unset, each of the
five wrapper activity functions returns a result with Success=false and a
nil error; ImplementationWorkflow therefore observes no failure at steps
1, 2, 5 and 6 and continues past each of them, but instead of proceeding
to step 7 it panics dereferencing the nil PR info of step 6's result, and
UpdateJiraActivity is never executed. -/
theorem unset_handlers_success_false_nil_error :
    ∀ (repo r2 r3 r4 : RepositoryInfo) (bn rp m t d tid url : String)
      (g : CodeGenerationResult) (tr : Except String TestingResult)
      (input : WorkflowInput),
      CloneRepositoryActivity none repo =
        .ok ⟨false, "GitHub activities not initialized", none, "", ""⟩
      ∧ CreateBranchActivity none r2 bn =
          .ok ⟨false, "GitHub activities not initialized", none, "", ""⟩
      ∧ CommitChangesActivity none r3 rp m =
          .ok ⟨false, "GitHub activities not initialized", none, "", ""⟩
      ∧ CreatePRActivity none r4 t d =
          .ok ⟨false, "GitHub activities not initialized", none, "", ""⟩
      ∧ UpdateJiraActivity none tid url =
          .ok ⟨false, "Jira activities not initialized"⟩
      ∧ ImplementationWorkflow
          ⟨CloneRepositoryActivity none repo, CreateBranchActivity none r2 bn,
            .ok g, tr, CommitChangesActivity none r3 rp m,
            CreatePRActivity none r4 t d, UpdateJiraActivity none tid url⟩
          input = ([1, 2, 3, 4, 5, 6], .crashNilPRInfo) := by
  intro repo r2 r3 r4 bn rp m t d tid url g tr input
  exact ⟨rfl, rfl, rfl, rfl, rfl, rfl⟩

/-- Invariant of the inner poll loop: the processedTasks set only grows,
every emitted ticket was fresh (absent from the incoming set) and is in
the final set, and no ticket is emitted twice — because a ticket is added
to the set before its send and skipped whenever already present. -/
lemma pollTasks_spec (ts : List Task) :
    ∀ (procs : List String) (or : List Bool),
      (∀ x ∈ procs, x ∈ (pollTasks procs ts or).processed)
      ∧ (∀ x ∈ (pollTasks procs ts or).emitted,
          x ∈ (pollTasks procs ts or).processed ∧ x ∉ procs)
      ∧ (pollTasks procs ts or).emitted.Nodup := by
  induction ts with
  | nil =>
    intro procs or
    simp [pollTasks]
  | cons t ts ih =>
    intro procs or
    by_cases hmem : t.JiraTicketID ∈ procs
    · simpa [pollTasks, hmem] using ih procs or
    · rcases hor : selectSend or with ⟨b, rest⟩
      cases b with
      | false =>
        have heq : pollTasks procs (t :: ts) or =
            ⟨t.JiraTicketID :: procs, [], rest, true⟩ := by
          simp [pollTasks, hmem, hor]
        rw [heq]
        exact ⟨fun x hx => List.mem_cons_of_mem _ hx,
          fun x hx => absurd hx (List.not_mem_nil x), List.nodup_nil⟩
      | true =>
        obtain ⟨ha, hb, hc⟩ := ih (t.JiraTicketID :: procs) rest
        have heq : pollTasks procs (t :: ts) or =
            ⟨(pollTasks (t.JiraTicketID :: procs) ts rest).processed,
              t.JiraTicketID :: (pollTasks (t.JiraTicketID :: procs) ts rest).emitted,
              (pollTasks (t.JiraTicketID :: procs) ts rest).oracle,
              (pollTasks (t.JiraTicketID :: procs) ts rest).cancelled⟩ := by
          simp [pollTasks, hmem, hor]
        rw [heq]
        refine ⟨?_, ?_, ?_⟩
        · intro x hx
          exact ha x (List.mem_cons_of_mem _ hx)
        · intro x hx
          rcases List.mem_cons.mp hx with rfl | hx2
          · exact ⟨ha _ (List.mem_cons_self _ _), hmem⟩
          · obtain ⟨h1, h2⟩ := hb x hx2
            exact ⟨h1, fun hxp => h2 (List.mem_cons_of_mem _ hxp)⟩
        · refine List.nodup_cons.mpr ⟨?_, hc⟩
          intro hin
          exact (hb _ hin).2 (List.mem_cons_self _ _)

/-- Invariant of one whole poll, across the status filter: identical to
pollTasks_spec, with per-status query failures skipped and a cancellation
ending the poll early. -/
lemma poll_spec (fetches : List (Except String (List Task))) :
    ∀ (procs : List String) (or : List Bool),
      (∀ x ∈ procs, x ∈ (poll procs fetches or).processed)
      ∧ (∀ x ∈ (poll procs fetches or).emitted,
          x ∈ (poll procs fetches or).processed ∧ x ∉ procs)
      ∧ (poll procs fetches or).emitted.Nodup := by
  induction fetches with
  | nil =>
    intro procs or
    simp [poll]
  | cons fetch fetches ih =>
    intro procs or
    match fetch with
    | .error e => simpa [poll] using ih procs or
    | .ok tasks =>
      obtain ⟨pa, pb, pc⟩ := pollTasks_spec tasks procs or
      by_cases hc : (pollTasks procs tasks or).cancelled
      · have heq : poll procs (.ok tasks :: fetches) or = pollTasks procs tasks or := by
          simp [poll, hc]
        rw [heq]
        exact ⟨pa, pb, pc⟩
      · obtain ⟨qa, qb, qc⟩ :=
          ih (pollTasks procs tasks or).processed (pollTasks procs tasks or).oracle
        have heq : poll procs (.ok tasks :: fetches) or =
            ⟨(poll (pollTasks procs tasks or).processed fetches
                (pollTasks procs tasks or).oracle).processed,
              (pollTasks procs tasks or).emitted ++
                (poll (pollTasks procs tasks or).processed fetches
                  (pollTasks procs tasks or).oracle).emitted,
              (poll (pollTasks procs tasks or).processed fetches
                (pollTasks procs tasks or).oracle).oracle,
              (poll (pollTasks procs tasks or).processed fetches
                (pollTasks procs tasks or).oracle).cancelled⟩ := by
          simp [poll, hc]
        rw [heq]
        refine ⟨?_, ?_, ?_⟩
        · intro x hx
          exact qa x (pa x hx)
        · intro x hx
          rcases List.mem_append.mp hx with h | h
          · obtain ⟨h1, h2⟩ := pb x h
            exact ⟨qa x h1, h2⟩
          · obtain ⟨h1, h2⟩ := qb x h
            exact ⟨h1, fun hxp => h2 (pa x hxp)⟩
        · exact pc.append qc fun x hx1 hx2 => (qb x hx2).2 ((pb x hx1).1)

/-- Invariant across poll cycles: over the whole lifetime of the poller
loop the emitted ticket identifiers are pairwise distinct and all fresh
relative to the starting processedTasks set. -/
lemma pollCycles_spec (cycles : List (List (Except String (List Task)))) :
    ∀ (procs : List String) (or : List Bool),
      (∀ x ∈ procs, x ∈ (pollCycles procs cycles or).processed)
      ∧ (∀ x ∈ (pollCycles procs cycles or).emitted,
          x ∈ (pollCycles procs cycles or).processed ∧ x ∉ procs)
      ∧ (pollCycles procs cycles or).emitted.Nodup := by
  induction cycles with
  | nil =>
    intro procs or
    simp [pollCycles]
  | cons cycle cycles ih =>
    intro procs or
    obtain ⟨pa, pb, pc⟩ := poll_spec cycle procs or
    by_cases hc : (poll procs cycle or).cancelled
    · have heq : pollCycles procs (cycle :: cycles) or = poll procs cycle or := by
        simp [pollCycles, hc]
      rw [heq]
      exact ⟨pa, pb, pc⟩
    · obtain ⟨qa, qb, qc⟩ :=
        ih (poll procs cycle or).processed (poll procs cycle or).oracle
      have heq : pollCycles procs (cycle :: cycles) or =
          ⟨(pollCycles (poll procs cycle or).processed cycles
              (poll procs cycle or).oracle).processed,
            (poll procs cycle or).emitted ++
              (pollCycles (poll procs cycle or).processed cycles
                (poll procs cycle or).oracle).emitted,
            (pollCycles (poll procs cycle or).processed cycles
              (poll procs cycle or).oracle).oracle,
            (pollCycles (poll procs cycle or).processed cycles
              (poll procs cycle or).oracle).cancelled⟩ := by
        simp [pollCycles, hc]
      rw [heq]
      refine ⟨?_, ?_, ?_⟩
      · intro x hx
        exact qa x (pa x hx)
      · intro x hx
        rcases List.mem_append.mp hx with h | h
        · obtain ⟨h1, h2⟩ := pb x h
          exact ⟨qa x h1, h2⟩
        · obtain ⟨h1, h2⟩ := qb x h
          exact ⟨h1, fun hxp => h2 (pa x hxp)⟩
      · exact pc.append qc fun x hx1 hx2 => (qb x hx2).2 ((pb x hx1).1)

/-- C1: starting from the fresh poller state NewPoller creates (an empty
processedTasks set), whatever task sets the tracker returns across any
sequence of poll cycles — overlapping across cycles and statuses — and
however the sends race against cancellation, the ticket identifiers placed
on the output channel are pairwise distinct: each ticket is emitted at
most once for the lifetime of the poller instance. -/
theorem poller_dedup_invariant :
    ∀ (cycles : List (List (Except String (List Task)))) (oracle : List Bool),
      (pollCycles [] cycles oracle).emitted.Nodup := by
  intro cycles oracle
  exact (pollCycles_spec cycles [] oracle).2.2

/-- When the very next select decision is won by cancellation (a full
channel with the context cancelled), the inner loop emits nothing: either
no send is attempted (all tasks already processed, the oracle untouched),
or the first attempted send loses the race and poll returns at once having
consumed only that one decision. -/
lemma pollTasks_oracle_false (ts : List Task) :
    ∀ (procs : List String) (rest : List Bool),
      (pollTasks procs ts (false :: rest)).emitted = []
      ∧ ((pollTasks procs ts (false :: rest)).cancelled = true →
          (pollTasks procs ts (false :: rest)).oracle = rest)
      ∧ ((pollTasks procs ts (false :: rest)).cancelled = false →
          (pollTasks procs ts (false :: rest)).oracle = false :: rest) := by
  induction ts with
  | nil =>
    intro procs rest
    simp [pollTasks]
  | cons t ts ih =>
    intro procs rest
    by_cases hmem : t.JiraTicketID ∈ procs
    · simpa [pollTasks, hmem] using ih procs rest
    · have heq : pollTasks procs (t :: ts) (false :: rest) =
          ⟨t.JiraTicketID :: procs, [], rest, true⟩ := by
        simp [pollTasks, hmem, selectSend]
      rw [heq]
      exact ⟨rfl, fun _ => rfl, fun h => nomatch h⟩

/-- The same statement lifted over the whole status filter: with the next
select decision won by cancellation, poll places nothing on the channel,
and if a send was attempted at all the poll returns immediately, having
consumed exactly the one racing decision. -/
lemma poll_oracle_false (fetches : List (Except String (List Task))) :
    ∀ (procs : List String) (rest : List Bool),
      (poll procs fetches (false :: rest)).emitted = []
      ∧ ((poll procs fetches (false :: rest)).cancelled = true →
          (poll procs fetches (false :: rest)).oracle = rest)
      ∧ ((poll procs fetches (false :: rest)).cancelled = false →
          (poll procs fetches (false :: rest)).oracle = false :: rest) := by
  induction fetches with
  | nil =>
    intro procs rest
    simp [poll]
  | cons fetch fetches ih =>
    intro procs rest
    match fetch with
    | .error e => simpa [poll] using ih procs rest
    | .ok tasks =>
      obtain ⟨pe, pct, pcf⟩ := pollTasks_oracle_false tasks procs rest
      by_cases hc : (pollTasks procs tasks (false :: rest)).cancelled
      · have heq : poll procs (.ok tasks :: fetches) (false :: rest) =
            pollTasks procs tasks (false :: rest) := by
          simp [poll, hc]
        rw [heq]
        refine ⟨pe, pct, fun h => ?_⟩
        rw [h] at hc
        exact nomatch hc
      · have hcf : (pollTasks procs tasks (false :: rest)).cancelled = false := by
          revert hc
          cases (pollTasks procs tasks (false :: rest)).cancelled <;> simp
        have horacle := pcf hcf
        obtain ⟨qe, qct, qcf⟩ := ih (pollTasks procs tasks (false :: rest)).processed rest
        have heq : poll procs (.ok tasks :: fetches) (false :: rest) =
            ⟨(poll (pollTasks procs tasks (false :: rest)).processed fetches
                (false :: rest)).processed,
              (pollTasks procs tasks (false :: rest)).emitted ++
                (poll (pollTasks procs tasks (false :: rest)).processed fetches
                  (false :: rest)).emitted,
              (poll (pollTasks procs tasks (false :: rest)).processed fetches
                (false :: rest)).oracle,
              (poll (pollTasks procs tasks (false :: rest)).processed fetches
                (false :: rest)).cancelled⟩ := by
          simp [poll, hc, horacle]
        rw [heq]
        exact ⟨by simp [pe, qe], qct, qcf⟩

/-- C4: in any poll invocation whose next select decision goes to
cancellation — the model of an output channel that cannot accept the task
while the context is cancelled — the poll emits no task at all; and
whenever a send was actually attempted (the poll reports the ctx.Done
return), it returned right at that first blocked send, having consumed
only the single racing decision, rather than blocking forever.  The model
is a total function, so the select in poller.go lines 71-79 never leaves
the poller deadlocked. -/
theorem poller_backpressure_cancellation :
    ∀ (procs : List String) (fetches : List (Except String (List Task)))
      (rest : List Bool),
      (poll procs fetches (false :: rest)).emitted = []
      ∧ ((poll procs fetches (false :: rest)).cancelled = true →
          (poll procs fetches (false :: rest)).oracle = rest) := by
  intro procs fetches rest
  obtain ⟨pe, pct, _⟩ := poll_oracle_false fetches procs rest
  exact ⟨pe, pct⟩

/-- Witness for C4: one fresh PROJ-1 task, a blocked channel and a
cancelled context — the poll emits nothing and stops after the one racing
select. -/
theorem poller_backpressure_cancellation_witness :
    (poll [] [Except.ok [sampleTask]] [false]).emitted = []
    ∧ (poll [] [Except.ok [sampleTask]] [false]).oracle = [] :=
  ⟨(poller_backpressure_cancellation [] [Except.ok [sampleTask]] []).1,
    (poller_backpressure_cancellation [] [Except.ok [sampleTask]] []).2 (by decide)⟩

/-- C10: a ticket identifier is added to the dedup set before the channel
send is raced against cancellation, so in the execution where the send of
fresh ticket PROJ-1 loses that race, the poll ends with PROJ-1 marked
processed yet never placed on the channel — and no later cycle of the same
poller instance ever emits it, since the dedup check skips it: emission is
at most once, not exactly once. -/
theorem marked_processed_never_emitted :
    (poll [] [Except.ok [sampleTask]] [false]).processed = ["PROJ-1"]
    ∧ (poll [] [Except.ok [sampleTask]] [false]).emitted = []
    ∧ ∀ (cycles : List (List (Except String (List Task)))) (oracle : List Bool),
        "PROJ-1" ∉
          (pollCycles (poll [] [Except.ok [sampleTask]] [false]).processed
            cycles oracle).emitted := by
  refine ⟨by decide, by decide, ?_⟩
  intro cycles oracle hmem
  have h :=
    ((pollCycles_spec cycles (poll [] [Except.ok [sampleTask]] [false]).processed
      oracle).2.1 _ hmem).2
  exact h (by decide)

/-- A nonempty pattern is reported absent by the index scan exactly when
it occurs nowhere in the list as a contiguous segment. -/
lemma goIndexAux_eq_none (pat : List Char) (hpat : pat ≠ []) :
    ∀ (l : List Char) (i : Nat), goIndexAux pat l i = none ↔ ¬ pat <:+: l := by
  intro l
  induction l with
  | nil =>
    intro i
    have hne : pat.isEmpty = false := by
      cases pat with
      | nil => exact absurd rfl hpat
      | cons c cs => rfl
    simp [goIndexAux, hne, List.infix_nil, hpat]
  | cons c cs ih =>
    intro i
    by_cases hpre : pat.isPrefixOf (c :: cs)
    · have hinf : pat <:+: c :: cs := (List.isPrefixOf_iff_prefix.mp hpre).isInfix
      simp [goIndexAux, hpre, hinf]
    · have hnp : ¬ pat <+: (c :: cs) := fun hx =>
        hpre (List.isPrefixOf_iff_prefix.mpr hx)
      simp only [goIndexAux, hpre, if_false, Bool.false_eq_true]
      rw [ih (i + 1), List.infix_cons_iff]
      constructor
      · intro h hor
        rcases hor with h1 | h2
        · exact hnp h1
        · exact h h2
      · intro h h2
        exact h (Or.inr h2)

/-- goIndex finds no occurrence exactly when the pattern is not an infix
of the string's rune list (for a nonempty pattern). -/
lemma goIndex_eq_none_iff (s pat : String) (hpat : pat.data ≠ []) :
    goIndex s pat = none ↔ ¬ pat.data <:+: s.data :=
  goIndexAux_eq_none pat.data hpat s.data 0

/-- A pattern absent from a string is absent from every infix of it. -/
lemma goIndex_none_of_infix {s sub pat : String} (hpat : pat.data ≠ [])
    (hinf : sub.data <:+: s.data) (h : goIndex s pat = none) :
    goIndex sub pat = none := by
  rw [goIndex_eq_none_iff _ _ hpat] at h ⊢
  exact fun hx => h (hx.trans hinf)

/-- Trimming white space yields an infix of the original rune list. -/
lemma goTrimSpace_segment (s : String) : (goTrimSpace s).data <:+: s.data := by
  have h1 : s.data.dropWhile goIsSpace <:+ s.data :=
    @List.dropWhile_suffix _ s.data goIsSpace
  have h2 : ((s.data.dropWhile goIsSpace).reverse.dropWhile goIsSpace).reverse <+:
      s.data.dropWhile goIsSpace := by
    have h3 := @List.dropWhile_suffix _ (s.data.dropWhile goIsSpace).reverse goIsSpace
    have h4 := List.reverse_prefix.mpr h3
    simpa using h4
  exact h2.isInfix.trans h1.isInfix

/-- Dropping leading runes yields an infix. -/
lemma strDrop_segment (s : String) (n : Nat) : (strDrop s n).data <:+: s.data :=
  (List.drop_suffix n s.data).isInfix

/-- parseStep on a line that contains no [TYPE: annotation produces the
default activity type codegen, through both shapes of the ordinal
stripping. -/
lemma parseStep_default_type (line : String) (order : Nat)
    (h : goIndex line "[TYPE:" = none) :
    (parseStep line order).ActivityType = "codegen" := by
  have hpat : ("[TYPE:" : String).data ≠ [] := by decide
  have h1 : goIndex (goTrimSpace line) "[TYPE:" = none :=
    goIndex_none_of_infix hpat (goTrimSpace_segment line) h
  cases hdot : goIndex (goTrimSpace line) "." with
  | none =>
    simp [parseStep, hdot, h1]
  | some idx =>
    have h2 : goIndex (goTrimSpace (strDrop (goTrimSpace line) (idx + 1)))
        "[TYPE:" = none := by
      apply goIndex_none_of_infix hpat _ h
      exact (goTrimSpace_segment _).trans
        ((strDrop_segment _ _).trans (goTrimSpace_segment line))
    simp [parseStep, hdot, h2]

/-- A line whose trimmed form does not start with "SUMMARY:" leaves the
plan's summary untouched, whichever other branch of the line dispatch it
takes. -/
lemma processLine_summary (st : ParseState) (l : String)
    (h : strStarts (goTrimSpace l) "SUMMARY:" = false) :
    (processLine st l).plan.Summary = st.plan.Summary := by
  simp only [processLine]
  repeat' split
  all_goals simp_all

/-- Folding the line dispatch over lines none of which carries a trimmed
"SUMMARY:" label preserves the summary accumulated so far. -/
lemma foldl_summary (lines : List String) :
    ∀ st : ParseState,
      (∀ l ∈ lines, strStarts (goTrimSpace l) "SUMMARY:" = false) →
      (lines.foldl processLine st).plan.Summary = st.plan.Summary := by
  induction lines with
  | nil =>
    intro st _
    rfl
  | cons l ls ih =>
    intro st h
    rw [List.foldl_cons,
      ih (processLine st l) fun x hx => h x (List.mem_cons_of_mem _ hx),
      processLine_summary st l (h l (List.mem_cons_self _ _))]

/-- C5 as amended: when no line of the response, after trimming
surrounding white space, starts with "SUMMARY:", parseResponse synthesizes
the default summary "Implementation plan for " followed by the ticket
identifier; and a step line containing no "[TYPE:" annotation yields a
PlanStep whose activity type defaults to codegen. -/
theorem parse_response_defaults :
    (∀ (response : String) (task : Task),
      ((responseLines response).all fun l => !strStarts (goTrimSpace l) "SUMMARY:") = true →
      (parseResponse response task).1.Summary =
        "Implementation plan for " ++ task.JiraTicketID)
    ∧ (∀ (line : String) (order : Nat), goIndex line "[TYPE:" = none →
        (parseStep line order).ActivityType = "codegen") := by
  constructor
  · intro response task hall
    have h : ∀ l ∈ responseLines response,
        strStarts (goTrimSpace l) "SUMMARY:" = false := by
      intro l hl
      have hx := List.all_eq_true.mp hall l hl
      simpa using hx
    have hsum := foldl_summary (responseLines response) ⟨⟨"", [], [], [], ""⟩, "", 1⟩ h
    simp [parseResponse, hsum]
  · exact fun line order h => parseStep_default_type line order h

/-- Witness for C5 (amended): a response with no labelled lines at all
gets the synthesized summary for PROJ-1, and a plain step line defaults to
codegen. -/
theorem parse_response_defaults_witness :
    (parseResponse "no labels here" sampleTask).1.Summary =
      "Implementation plan for " ++ sampleTask.JiraTicketID
    ∧ (parseStep "1. Do something" 1).ActivityType = "codegen" :=
  ⟨parse_response_defaults.1 "no labels here" sampleTask (by decide),
    parse_response_defaults.2 "1. Do something" 1 (by decide)⟩

/-- Counterexample for C5 as stated: in the response " SUMMARY: hi" no raw
line starts with "SUMMARY:" (the single line starts with a space), yet
parseResponse does not synthesize the default summary for the ticket — it
trims the line before the prefix test and parses the summary "hi". -/
theorem parse_summary_raw_line_counterexample :
    ((responseLines " SUMMARY: hi").all fun l => !strStarts l "SUMMARY:") = true
    ∧ (parseResponse " SUMMARY: hi" sampleTask).1.Summary = "hi"
    ∧ (parseResponse " SUMMARY: hi" sampleTask).1.Summary ≠
        "Implementation plan for " ++ sampleTask.JiraTicketID := by
  exact ⟨by decide, by decide, by decide⟩

end Khitomer
